import Mathlib

/-!
# Verification of the docx-core document model and codec

A shallow embedding of the `docx-core` crate (documents/elements and the
quick-xml based deserializers), together with theorems about the reader's
tolerant parsing policies, the `has_numbering` cached invariant, the
builder API, and the writer's structural synthesis and failure behaviour.

Conventions of the embedding:
* Rust `String` is Lean `String`; all character-level scanning is done on
  `String.data` (a `List Char`).
* Rust machine integers are `Nat`/`Int` with explicit range clamps where a
  lossy `as` cast occurs in the source.
* Rust floating-point decimal literals parsed from attribute strings are
  modelled as exact rationals (`ℚ`); the binary rounding of `f32`/`f64` is
  not modelled.  Every concrete value evaluated in a theorem below is one
  for which the `f64` computation in the source is exact (for instance
  `12.7 * 20.0 = 254.0` holds exactly in binary64).
* `serde`'s `IgnoredAny` payloads become argument-less constructors.
* Fallible Rust code returns `Option`/`Except`; a Rust panic (`todo!`,
  `unreachable!`) is an explicit error value carrying the panic message.
-/

namespace Docx

/-! ## String primitives (models of the Rust `str` methods used) -/

/-- Rust `char::is_whitespace`, restricted to the ASCII whitespace that can
occur in the attribute values under study. -/
def isWsChar (c : Char) : Bool :=
  c = ' ' || c = '\t' || c = '\n' || c = '\r'

/-- Rust `str::trim` on the character list. -/
def trimList (cs : List Char) : List Char :=
  ((cs.dropWhile isWsChar).reverse.dropWhile isWsChar).reverse

/-- Rust `str::trim`. -/
def rustTrim (s : String) : String :=
  ⟨trimList s.data⟩

/-- Rust `u8::to_ascii_lowercase` on one character. -/
def asciiLowerChar (c : Char) : Char :=
  if 'A' ≤ c ∧ c ≤ 'Z' then Char.ofNat (c.toNat + 32) else c

/-- Rust `str::to_ascii_lowercase`. -/
def asciiLower (s : String) : String :=
  ⟨s.data.map asciiLowerChar⟩

/-- Model of `v.trim().to_ascii_lowercase()`, the normalisation step shared by the
on/off parsers. -/
def normOnOff (s : String) : String :=
  asciiLower (rustTrim s)

/-- Rust `str::strip_suffix` for a literal suffix, on character lists. -/
def stripSuffixList (cs suffix : List Char) : Option (List Char) :=
  if suffix.isSuffixOf cs then some (cs.take (cs.length - suffix.length))
  else none

/-- The optional leading sign accepted by Rust's numeric parsers: returns
(is-negative, remaining characters). -/
def splitSign : List Char → Bool × List Char
  | '-' :: rest => (true, rest)
  | '+' :: rest => (false, rest)
  | cs => (false, cs)

/-! ## Numeric string parsing (models of `str::parse::<T>()`) -/

/-- Numeric value of a list of ASCII digits. -/
def digitsVal (cs : List Char) : Nat :=
  cs.foldl (fun a c => 10 * a + (c.toNat - 48)) 0

/-- Rust `str::parse::<usize>()`: optional `+` sign followed by one or more
ASCII digits (64-bit overflow is not modelled; no value proved about below
approaches it). -/
def rustParseNat (s : String) : Option Nat :=
  let cs := match s.data with | '+' :: rest => rest | cs => cs
  if cs ≠ [] ∧ cs.all Char.isDigit then some (digitsVal cs) else none

/-- Rust `str::parse::<u32>()`, with the 32-bit range check. -/
def rustParseU32 (s : String) : Option Nat :=
  let (neg, cs) := splitSign s.data
  if cs ≠ [] ∧ cs.all Char.isDigit ∧ ¬neg then
    let n := digitsVal cs
    if n < 2 ^ 32 then some n else none
  else none

/-- Rust `str::parse::<i32>()`: optional sign, digits, 32-bit range check. -/
def rustParseI32 (s : String) : Option Int :=
  let (neg, cs) := splitSign s.data
  if cs ≠ [] ∧ cs.all Char.isDigit then
    let n : Int := (digitsVal cs : Int)
    let v : Int := if neg then -n else n
    if -(2 ^ 31) ≤ v ∧ v < 2 ^ 31 then some v else none
  else none

/-- An exactly-represented decimal value `mantissa / 10 ^ scale`, the model
of a parsed `f64`/`f32` attribute value. -/
structure Dec where
  mantissa : Int
  scale : Nat
  deriving DecidableEq, Repr

/-- The rational value of a `Dec`. -/
def Dec.val (d : Dec) : ℚ := (d.mantissa : ℚ) / (10 : ℚ) ^ d.scale

/-- Model of Rust `str::parse::<f64>()` (and `::<f32>()`) on plain decimal
strings: optional sign, an integer part and/or a fractional part.  The
value is kept as an exact decimal; exponents, `inf` and `nan` spellings
are outside the fragment exercised by this codec's attribute grammar, and
the binary rounding of the float types is not modelled. -/
def parseDecimal (s : String) : Option Dec :=
  let (neg, cs) := splitSign s.data
  let intPart := cs.takeWhile Char.isDigit
  let rest := cs.drop intPart.length
  let d? : Option Dec :=
    match rest with
    | [] =>
        if intPart ≠ [] then some ⟨(digitsVal intPart : Int), 0⟩ else none
    | '.' :: frac =>
        if frac.all Char.isDigit ∧ (intPart ≠ [] ∨ frac ≠ []) then
          some ⟨(digitsVal intPart * 10 ^ frac.length + digitsVal frac : Int),
            frac.length⟩
        else none
    | _ => none
  d?.map fun d => if neg then ⟨-d.mantissa, d.scale⟩ else d

/-- Multiplication of a parsed decimal by an integer constant (exact; used
for the `pt`-to-dxa conversion `n * 20.0`). -/
def Dec.mulInt (d : Dec) (n : Int) : Dec :=
  ⟨d.mantissa * n, d.scale⟩

/-- Truncation toward zero, as performed by Rust's float-to-integer `as`
casts before saturation. -/
def Dec.trunc (d : Dec) : Int :=
  if d.mantissa < 0 then -((d.mantissa.natAbs / 10 ^ d.scale : Nat) : Int)
  else ((d.mantissa.natAbs / 10 ^ d.scale : Nat) : Int)

/-- Rust `as i32` from a float value (truncate toward zero, saturate). -/
def Dec.asI32 (d : Dec) : Int :=
  max (-(2 ^ 31)) (min (2 ^ 31 - 1) d.trunc)

/-- Rust `as u32` from a float value (negative saturates to 0). -/
def Dec.asU32 (d : Dec) : Nat :=
  (max 0 (min (2 ^ 32 - 1) d.trunc)).toNat

/-- Rust `as usize` from a float value (negative saturates to 0; the upper
64-bit saturation is not modelled). -/
def Dec.asUsize (d : Dec) : Nat :=
  (max 0 d.trunc).toNat

/-! ## On/off boolean parsing

The crate has several local implementations of the WordprocessingML
on/off value convention; each is modelled separately, named after the
source file that defines it. -/

/-- Model of `parse_on_off` from `documents/elements/style.rs`: true unless the
value is present and normalises to `0` or `false`. -/
def parse_on_off (v : Option String) : Bool :=
  !(match v.map normOnOff with
    | some s => s = "0" || s = "false"
    | none => false)

/-- Model of `parse_on_off_run` from `documents/elements/run.rs` (used for the
field-character `dirty` attribute). -/
def parse_on_off_run (v : String) : Bool :=
  !(normOnOff v = "0" || normOnOff v = "false")

/-- Model of `parse_on_off` from `documents/elements/table_row.rs` (used for the
`cantSplit` row property). -/
def parse_on_off_table_row (v : Option String) : Bool :=
  !(match v.map normOnOff with
    | some s => s = "0" || s = "false"
    | none => false)

/-- Model of `parse_on_off` from `documents/elements/drawing.rs`: recognises
`0`/`false`/`off` as false and `1`/`true`/`on` (or any other present
value) as true; an absent attribute yields the caller-supplied default. -/
def parse_on_off_drawing (raw : Option String) (default : Bool) : Bool :=
  match raw.map normOnOff with
  | some v =>
      if v = "0" || v = "false" || v = "off" then false
      else if v = "1" || v = "true" || v = "on" then true
      else true
  | none => default

/-! ## Numeric attribute helpers from the reader -/

/-- Model of `parse_usize` from `documents/elements/style.rs`: integer parse first,
then float parse truncated. -/
def parse_usize (raw : Option String) : Option Nat :=
  raw.bind fun v =>
    (rustParseNat v).orElse fun _ => (parseDecimal v).map Dec.asUsize

/-- Model of `parse_i32` from `documents/elements/style.rs`. -/
def parse_i32 (raw : Option String) : Option Int :=
  raw.bind fun v =>
    (rustParseI32 v).orElse fun _ => (parseDecimal v).map Dec.asI32

/-- Model of `parse_u32` from `documents/elements/style.rs` (no float fallback). -/
def parse_u32 (raw : Option String) : Option Nat :=
  raw.bind fun v => rustParseU32 v

/-- Model of `parse_usize_attr` from `documents/elements/abstract_numbering.rs`:
integer-or-truncated-float with an explicit default. -/
def parse_usize_attr (value : Option String) (default : Nat) : Nat :=
  (value.bind fun v =>
    (rustParseNat v).orElse fun _ => (parseDecimal v).map Dec.asUsize
  ).getD default

/-- Model of `parse_dxa_i32` from `documents/elements/section_property.rs`: a
`pt`-suffixed value is a point measure converted to twentieths of a point
(`n * 20.0`), otherwise the value is a float parsed and truncated. -/
def parse_dxa_i32 (raw : Option String) : Option Int :=
  raw.bind fun raw =>
    let raw := rustTrim raw
    match stripSuffixList raw.data ['p', 't'] with
    | some v => (parseDecimal ⟨v⟩).map fun d => (d.mulInt 20).asI32
    | none => (parseDecimal raw).map Dec.asI32

/-- Model of `parse_dxa_u32` from `documents/elements/section_property.rs`. -/
def parse_dxa_u32 (raw : Option String) : Option Nat :=
  (parse_dxa_i32 raw).bind fun v =>
    if 0 ≤ v then some v.toNat else none

/-- Model of `parse_optional_usize` from `documents/elements/structured_data_tag.rs`
(also `parse_optional_usize_doc` in `documents/document.rs`): a plain
integer parse of an optional attribute. -/
def parse_optional_usize (v : Option String) : Option Nat :=
  v.bind fun s => rustParseNat s

/-! ## Run properties: XML helper structures and the tolerant reader
(`documents/elements/style.rs`) -/

/-- A `w:val`-carrying element (`XmlValueAttr`). -/
structure XmlValueAttr where
  val : Option String := none
  deriving DecidableEq, Repr

/-- An on/off toggle element (`XmlOnOffAttr`). -/
structure XmlOnOffAttr where
  val : Option String := none
  deriving DecidableEq, Repr

/-- The attribute set of a `w:rFonts` element (`RunFontsXml`). -/
structure RunFontsXml where
  ascii : Option String := none
  east_asia : Option String := none
  h_ansi : Option String := none
  cs : Option String := none
  ascii_theme : Option String := none
  east_asia_theme : Option String := none
  h_ansi_theme : Option String := none
  cs_theme : Option String := none
  hint : Option String := none
  deriving DecidableEq, Repr

/-- One tagged child of a `w:rPr` block (`RunPropertyChildXml`). -/
inductive RunPropertyChildXml where
  | style (v : XmlValueAttr)
  | size (v : XmlValueAttr)
  | color (v : XmlValueAttr)
  | highlight (v : XmlValueAttr)
  | spacing (v : XmlValueAttr)
  | fonts (v : RunFontsXml)
  | underline (v : XmlValueAttr)
  | bold (v : XmlOnOffAttr)
  | boldCs (v : XmlOnOffAttr)
  | italic (v : XmlOnOffAttr)
  | italicCs (v : XmlOnOffAttr)
  | strike (v : XmlOnOffAttr)
  | dstrike (v : XmlOnOffAttr)
  | vanish (v : XmlOnOffAttr)
  | specVanish (v : XmlOnOffAttr)
  | unknown
  deriving DecidableEq, Repr

/-- The accumulated `RunPropertyXml` helper structure. -/
structure RunPropertyXml where
  style : Option XmlValueAttr := none
  size : Option XmlValueAttr := none
  color : Option XmlValueAttr := none
  highlight : Option XmlValueAttr := none
  spacing : Option XmlValueAttr := none
  fonts : Option RunFontsXml := none
  underline : Option XmlValueAttr := none
  bold : Option XmlOnOffAttr := none
  bold_cs : Option XmlOnOffAttr := none
  italic : Option XmlOnOffAttr := none
  italic_cs : Option XmlOnOffAttr := none
  strike : Option XmlOnOffAttr := none
  dstrike : Option XmlOnOffAttr := none
  vanish : Option XmlOnOffAttr := none
  spec_vanish : Option XmlOnOffAttr := none
  deriving DecidableEq, Repr

/-- One step of `RunPropertyXml::deserialize`'s accumulation loop: a child
is stored only when its slot is still unset (`if result.X.is_none()`), so
the first occurrence of a duplicated element wins. -/
def RunPropertyXml.applyChild (r : RunPropertyXml) :
    RunPropertyChildXml → RunPropertyXml
  | .style v => if r.style.isNone then { r with style := some v } else r
  | .size v => if r.size.isNone then { r with size := some v } else r
  | .color v => if r.color.isNone then { r with color := some v } else r
  | .highlight v =>
      if r.highlight.isNone then { r with highlight := some v } else r
  | .spacing v => if r.spacing.isNone then { r with spacing := some v } else r
  | .fonts v => if r.fonts.isNone then { r with fonts := some v } else r
  | .underline v =>
      if r.underline.isNone then { r with underline := some v } else r
  | .bold v => if r.bold.isNone then { r with bold := some v } else r
  | .boldCs v => if r.bold_cs.isNone then { r with bold_cs := some v } else r
  | .italic v => if r.italic.isNone then { r with italic := some v } else r
  | .italicCs v =>
      if r.italic_cs.isNone then { r with italic_cs := some v } else r
  | .strike v => if r.strike.isNone then { r with strike := some v } else r
  | .dstrike v => if r.dstrike.isNone then { r with dstrike := some v } else r
  | .vanish v => if r.vanish.isNone then { r with vanish := some v } else r
  | .specVanish v =>
      if r.spec_vanish.isNone then { r with spec_vanish := some v } else r
  | .unknown => r

/-- Model of `impl Deserialize for RunPropertyXml`: fold the raw child list through
the first-wins accumulator. -/
def RunPropertyXml.deserialize (children : List RunPropertyChildXml) :
    RunPropertyXml :=
  children.foldl RunPropertyXml.applyChild {}

/-- Modelled from the spec: the `w:rFonts` model value (`RunFonts`); its
defining file is not among the sources, so it carries exactly the fields
the in-repo reader (`parse_run_property_xml`) assigns. -/
structure RunFonts where
  ascii : Option String := none
  east_asia : Option String := none
  hi_ansi : Option String := none
  cs : Option String := none
  ascii_theme : Option String := none
  east_asia_theme : Option String := none
  hi_ansi_theme : Option String := none
  cs_theme : Option String := none
  hint : Option String := none
  deriving DecidableEq, Repr

/-- Modelled from the spec: the run-level formatting bundle
(`RunProperty`).  Its defining file is not among the sources; it carries
the fields the in-repo reader assigns, each `none` ("empty") by default,
with boolean toggles as `some true` / `some false`. -/
structure RunProperty where
  style : Option String := none
  sz : Option Nat := none
  color : Option String := none
  highlight : Option String := none
  character_spacing : Option Int := none
  underline : Option String := none
  bold : Option Bool := none
  italic : Option Bool := none
  strike : Option Bool := none
  dstrike : Option Bool := none
  vanish : Option Bool := none
  spec_vanish : Option Bool := none
  fonts : Option RunFonts := none
  deriving DecidableEq, Repr

/-- Model of `RunProperty::new()`: the empty (default) bundle. -/
def RunProperty.new : RunProperty := {}

/-- Model of `parse_run_property_xml` from `documents/elements/style.rs`: an absent
`w:rPr` block yields the present-but-empty default bundle; otherwise each
recognised sub-element is coerced and applied. -/
def parse_run_property_xml (xml : Option RunPropertyXml) : RunProperty :=
  match xml with
  | none => RunProperty.new
  | some xml =>
    let rp : RunProperty := RunProperty.new
    let rp := match xml.style.bind XmlValueAttr.val with
      | some v => { rp with style := some v }
      | none => rp
    let rp := match parse_usize (xml.size.bind XmlValueAttr.val) with
      | some v => { rp with sz := some v }
      | none => rp
    let rp := match xml.color.bind XmlValueAttr.val with
      | some v => { rp with color := some v }
      | none => rp
    let rp := match xml.highlight.bind XmlValueAttr.val with
      | some v => { rp with highlight := some v }
      | none => rp
    let rp := match parse_i32 (xml.spacing.bind XmlValueAttr.val) with
      | some v => { rp with character_spacing := some v }
      | none => rp
    let rp := match xml.underline.bind XmlValueAttr.val with
      | some v => { rp with underline := some v }
      | none => rp
    let rp := match xml.bold with
      | some v => { rp with bold := some (parse_on_off v.val) }
      | none => rp
    let rp := match xml.italic with
      | some v => { rp with italic := some (parse_on_off v.val) }
      | none => rp
    let rp := match xml.strike with
      | some v => { rp with strike := some (parse_on_off v.val) }
      | none => rp
    let rp := match xml.dstrike with
      | some v => { rp with dstrike := some (parse_on_off v.val) }
      | none => rp
    let rp := if xml.vanish.isSome then { rp with vanish := some true } else rp
    let rp :=
      if xml.spec_vanish.isSome then { rp with spec_vanish := some true }
      else rp
    let rp := match xml.fonts with
      | some fonts =>
          let f : RunFonts :=
            { ascii := fonts.ascii
              east_asia := fonts.east_asia
              hi_ansi := fonts.h_ansi
              cs := fonts.cs
              ascii_theme := fonts.ascii_theme
              east_asia_theme := fonts.east_asia_theme
              hi_ansi_theme := fonts.h_ansi_theme
              cs_theme := fonts.cs_theme
              hint := fonts.hint }
          { rp with fonts := some f }
      | none => rp
    rp

/-! ## Paragraph properties (`documents/elements/style.rs`) -/

/-- Modelled from the spec: the closed paragraph-justification vocabulary
(`AlignmentType`); its defining file is not among the sources. -/
inductive AlignmentType where
  | center | left | right | both | justified | distribute | start | «end»
  deriving DecidableEq, Repr

/-- Modelled from the spec: `AlignmentType::from_str` — closed-vocabulary
parse, failing outside the known set. -/
def AlignmentType.fromStr (s : String) : Option AlignmentType :=
  if s = "center" then some .center
  else if s = "left" then some .left
  else if s = "right" then some .right
  else if s = "both" then some .both
  else if s = "justified" then some .justified
  else if s = "distribute" then some .distribute
  else if s = "start" then some .start
  else if s = "end" then some .«end»
  else none

/-- Modelled from the spec: the vertical text-alignment vocabulary
(`TextAlignmentType`); its defining file is not among the sources. -/
inductive TextAlignmentType where
  | auto | baseline | bottom | center | top
  deriving DecidableEq, Repr

/-- Modelled from the spec: `TextAlignmentType::from_str`. -/
def TextAlignmentType.fromStr (s : String) : Option TextAlignmentType :=
  if s = "auto" then some .auto
  else if s = "baseline" then some .baseline
  else if s = "bottom" then some .bottom
  else if s = "center" then some .center
  else if s = "top" then some .top
  else none

/-- Modelled from the spec: the line-spacing rule vocabulary
(`LineSpacingType`); its defining file is not among the sources. -/
inductive LineSpacingType where
  | atLeast | auto | exact
  deriving DecidableEq, Repr

/-- Modelled from the spec: `LineSpacingType::from_str`. -/
def LineSpacingType.fromStr (s : String) : Option LineSpacingType :=
  if s = "atLeast" then some .atLeast
  else if s = "auto" then some .auto
  else if s = "exact" then some .exact
  else none

/-- Modelled from the spec: a hanging or first-line special indent
(`SpecialIndentType`). -/
inductive SpecialIndentType where
  | hanging (v : Int)
  | firstLine (v : Int)
  deriving DecidableEq, Repr

/-- Modelled from the spec: the paragraph indent bundle (`Indent`); its
defining file is not among the sources. -/
structure Indent where
  start : Option Int := none
  «end» : Option Int := none
  special_indent : Option SpecialIndentType := none
  start_chars : Option Int := none
  hanging_chars : Option Int := none
  first_line_chars : Option Int := none
  deriving DecidableEq, Repr

/-- Modelled from the spec: the line-spacing bundle (`LineSpacing`); its
defining file is not among the sources. -/
structure LineSpacing where
  line_rule : Option LineSpacingType := none
  before : Option Nat := none
  after : Option Nat := none
  before_lines : Option Nat := none
  after_lines : Option Nat := none
  line : Option Int := none
  deriving DecidableEq, Repr

/-- Modelled from the spec: the paragraph-level formatting bundle
(`ParagraphProperty`); its defining file is not among the sources, so it
carries the fields the in-repo reader assigns. -/
structure ParagraphProperty where
  run_property : RunProperty := RunProperty.new
  style : Option String := none
  alignment : Option AlignmentType := none
  text_alignment : Option TextAlignmentType := none
  adjust_right_ind : Option Int := none
  outline_lvl : Option Nat := none
  snap_to_grid : Option Bool := none
  keep_next : Option Bool := none
  keep_lines : Option Bool := none
  page_break_before : Option Bool := none
  widow_control : Option Bool := none
  div_id : Option String := none
  indent : Option Indent := none
  line_spacing : Option LineSpacing := none
  deriving DecidableEq, Repr

/-- Model of `ParagraphProperty::new()`. -/
def ParagraphProperty.new : ParagraphProperty := {}

/-- The attribute set of a `w:ind` element (`IndentXml`). -/
structure IndentXml where
  left : Option String := none
  right : Option String := none
  hanging : Option String := none
  first_line : Option String := none
  start_chars : Option String := none
  hanging_chars : Option String := none
  first_line_chars : Option String := none
  deriving DecidableEq, Repr

/-- The attribute set of a paragraph `w:spacing` element
(`LineSpacingXml`). -/
structure LineSpacingXml where
  line_rule : Option String := none
  before : Option String := none
  after : Option String := none
  before_lines : Option String := none
  after_lines : Option String := none
  line : Option String := none
  deriving DecidableEq, Repr

/-- The helper structure for a `w:pPr` block (`ParagraphPropertyXml`). -/
structure ParagraphPropertyXml where
  run_property : Option RunPropertyXml := none
  style : Option XmlValueAttr := none
  alignment : Option XmlValueAttr := none
  indent : Option IndentXml := none
  spacing : Option LineSpacingXml := none
  text_alignment : Option XmlValueAttr := none
  adjust_right_ind : Option XmlValueAttr := none
  outline_lvl : Option XmlValueAttr := none
  snap_to_grid : Option XmlOnOffAttr := none
  keep_next : Option XmlOnOffAttr := none
  keep_lines : Option XmlOnOffAttr := none
  page_break_before : Option XmlOnOffAttr := none
  widow_control : Option XmlOnOffAttr := none
  div_id : Option XmlValueAttr := none
  deriving DecidableEq, Repr

/-- Model of `parse_paragraph_property_xml` from `documents/elements/style.rs`. -/
def parse_paragraph_property_xml (xml : Option ParagraphPropertyXml) :
    ParagraphProperty :=
  match xml with
  | none => ParagraphProperty.new
  | some xml =>
    let p : ParagraphProperty := ParagraphProperty.new
    let p := match xml.style.bind XmlValueAttr.val with
      | some v => { p with style := some v }
      | none => p
    let p := match (xml.alignment.bind XmlValueAttr.val).bind
        AlignmentType.fromStr with
      | some a => { p with alignment := some a }
      | none => p
    let p := match (xml.text_alignment.bind XmlValueAttr.val).bind
        TextAlignmentType.fromStr with
      | some a => { p with text_alignment := some a }
      | none => p
    let p := match parse_i32 (xml.adjust_right_ind.bind XmlValueAttr.val) with
      | some v => { p with adjust_right_ind := some v }
      | none => p
    let p := match parse_usize (xml.outline_lvl.bind XmlValueAttr.val) with
      | some v => { p with outline_lvl := some v }
      | none => p
    let p := match xml.snap_to_grid with
      | some v => { p with snap_to_grid := some (parse_on_off v.val) }
      | none => p
    let p := match xml.keep_next with
      | some v =>
          if parse_on_off v.val then { p with keep_next := some true } else p
      | none => p
    let p := match xml.keep_lines with
      | some v =>
          if parse_on_off v.val then { p with keep_lines := some true } else p
      | none => p
    let p := match xml.page_break_before with
      | some v =>
          if parse_on_off v.val then { p with page_break_before := some true }
          else p
      | none => p
    let p := match xml.widow_control with
      | some v =>
          if parse_on_off v.val then { p with widow_control := some true }
          else p
      | none => p
    let p := match xml.div_id.bind XmlValueAttr.val with
      | some v => { p with div_id := some v }
      | none => p
    let p := match xml.indent with
      | some ind =>
          let start := parse_i32 ind.left
          let e := parse_i32 ind.right
          let special := match parse_i32 ind.hanging with
            | some v => some (SpecialIndentType.hanging v)
            | none => (parse_i32 ind.first_line).map SpecialIndentType.firstLine
          let start_chars := parse_i32 ind.start_chars
          let base : Indent :=
            { start := start, «end» := e, special_indent := special,
              start_chars := start_chars }
          let base := match parse_i32 ind.hanging_chars with
            | some v => { base with hanging_chars := some v }
            | none => base
          let base := match parse_i32 ind.first_line_chars with
            | some v => { base with first_line_chars := some v }
            | none => base
          { p with indent := some base }
      | none => p
    let p := match xml.spacing with
      | some sp =>
          let ls : LineSpacing := {}
          let hasSpacing := false
          let (ls, hasSpacing) :=
            match (sp.line_rule.bind LineSpacingType.fromStr) with
            | some rule => ({ ls with line_rule := some rule }, true)
            | none => (ls, hasSpacing)
          let (ls, hasSpacing) := match parse_u32 sp.before with
            | some v => ({ ls with before := some v }, true)
            | none => (ls, hasSpacing)
          let (ls, hasSpacing) := match parse_u32 sp.after with
            | some v => ({ ls with after := some v }, true)
            | none => (ls, hasSpacing)
          let (ls, hasSpacing) := match parse_u32 sp.before_lines with
            | some v => ({ ls with before_lines := some v }, true)
            | none => (ls, hasSpacing)
          let (ls, hasSpacing) := match parse_u32 sp.after_lines with
            | some v => ({ ls with after_lines := some v }, true)
            | none => (ls, hasSpacing)
          let (ls, hasSpacing) := match parse_i32 sp.line with
            | some v => ({ ls with line := some v }, true)
            | none => (ls, hasSpacing)
          if hasSpacing then { p with line_spacing := some ls } else p
      | none => p
    let p := match xml.run_property with
      | some rp => { p with run_property := parse_run_property_xml (some rp) }
      | none => p
    p

/-! ## Numbering levels (`documents/elements/abstract_numbering.rs`) -/

/-- Modelled from the spec: the level-suffix vocabulary
(`LevelSuffixType`); its defining file is not among the sources. -/
inductive LevelSuffixType where
  | tab | space | nothing
  deriving DecidableEq, Repr

/-- Modelled from the spec: `LevelSuffixType::from_str`. -/
def LevelSuffixType.fromStr (s : String) : Option LevelSuffixType :=
  if s = "tab" then some .tab
  else if s = "space" then some .space
  else if s = "nothing" then some .nothing
  else none

/-- The helper structure for one `w:lvl` element (`LevelXml`). -/
structure LevelXml where
  level : Option String := none
  start : Option XmlValueAttr := none
  number_format : Option XmlValueAttr := none
  level_text : Option XmlValueAttr := none
  level_jc : Option XmlValueAttr := none
  paragraph_property : Option ParagraphPropertyXml := none
  run_property : Option RunPropertyXml := none
  suffix : Option XmlValueAttr := none
  paragraph_style : Option XmlValueAttr := none
  level_restart : Option XmlValueAttr := none
  is_lgl : Option XmlValueAttr := none
  deriving DecidableEq, Repr

/-- Modelled from the spec: one numbering level of an abstract template
(`Level`); its defining file is not among the sources, so it carries the
fields set by `Level::new` and the builder calls the in-repo reader
makes (start value, format, text pattern, justification, suffix defaulting
to a tab, optional paragraph style/restart, legal-numbering flag). -/
structure Level where
  level : Nat
  start : Nat
  format : String
  text : String
  jc : String
  suffix : LevelSuffixType := LevelSuffixType.tab
  pstyle : Option String := none
  level_restart : Option Nat := none
  is_lgl : Bool := false
  paragraph_property : ParagraphProperty := ParagraphProperty.new
  run_property : RunProperty := RunProperty.new
  deriving DecidableEq, Repr

/-- Model of `level_from_xml` from `documents/elements/abstract_numbering.rs`: the
documented defaults are start `1`, format `decimal`, empty text, and
justification `left`. -/
def level_from_xml (xml : LevelXml) : Level :=
  let level := parse_usize_attr xml.level 0
  let start := parse_usize_attr (xml.start.bind XmlValueAttr.val) 1
  let number_format := (xml.number_format.bind XmlValueAttr.val).getD "decimal"
  let level_text := (xml.level_text.bind XmlValueAttr.val).getD ""
  let level_jc := (xml.level_jc.bind XmlValueAttr.val).getD "left"
  let out : Level :=
    { level := level, start := start, format := number_format,
      text := level_text, jc := level_jc }
  let out := match xml.paragraph_style.bind XmlValueAttr.val with
    | some v => { out with pstyle := some v }
    | none => out
  let out := match (xml.suffix.bind XmlValueAttr.val).bind
      LevelSuffixType.fromStr with
    | some suffix => { out with suffix := suffix }
    | none => out
  let out := match (xml.level_restart.bind XmlValueAttr.val).bind
      rustParseU32 with
    | some n => { out with level_restart := some n }
    | none => out
  let out := if xml.is_lgl.isSome then { out with is_lgl := true } else out
  let out :=
    { out with paragraph_property :=
        parse_paragraph_property_xml xml.paragraph_property }
  { out with run_property := parse_run_property_xml xml.run_property }

/-! ## Section properties (`documents/elements/section_property.rs`) -/

/-- Modelled from the spec: page geometry defaults (`PageSize::new()`),
values taken from the writer's own unit tests in the sources
(`w:pgSz w:w="11906" w:h="16838"`). -/
structure PageSize where
  w : Nat := 11906
  h : Nat := 16838
  orient : Option String := none
  deriving DecidableEq, Repr

/-- Model of `PageSize::new()`. -/
def PageSize.new : PageSize := {}

/-- Model of `PageSize::width`. -/
def PageSize.width (s : PageSize) (v : Nat) : PageSize := { s with w := v }

/-- Model of `PageSize::height`. -/
def PageSize.height (s : PageSize) (v : Nat) : PageSize := { s with h := v }

/-- Modelled from the spec: page margins in twentieths of a point
(`PageMargin::new()`), default values taken from the writer's own unit
tests in the sources (`w:pgMar w:top="1985" w:right="1701" w:bottom="1701"
w:left="1701" w:header="851" w:footer="992" w:gutter="0"`). -/
structure PageMargin where
  top : Int := 1985
  right : Int := 1701
  bottom : Int := 1701
  left : Int := 1701
  header : Int := 851
  footer : Int := 992
  gutter : Int := 0
  deriving DecidableEq, Repr

/-- Model of `PageMargin::new()`. -/
def PageMargin.new : PageMargin := {}

/-- Modelled from the spec: the document-grid vocabulary (`DocGridType`). -/
inductive DocGridType where
  | default | lines | linesAndChars | snapToChars
  deriving DecidableEq, Repr

/-- Modelled from the spec: `DocGridType::from_str`. -/
def DocGridType.fromStr (s : String) : Option DocGridType :=
  if s = "default" then some .default
  else if s = "lines" then some .lines
  else if s = "linesAndChars" then some .linesAndChars
  else if s = "snapToChars" then some .snapToChars
  else none

/-- Modelled from the spec: grid settings (`DocGrid`), `with_empty()` being
all-unset. -/
structure DocGrid where
  grid_type : Option DocGridType := none
  line_pitch : Option Nat := none
  char_space : Option Int := none
  deriving DecidableEq, Repr

/-- Modelled from the spec: page-numbering settings (`PageNumType`). -/
structure PageNumType where
  start : Option Nat := none
  chap_style : Option String := none
  deriving DecidableEq, Repr

/-- Modelled from the spec: a header part reference
(`HeaderReference::new(type, id)`). -/
structure HeaderReference where
  header_type : String
  id : String
  deriving DecidableEq, Repr

/-- Modelled from the spec: a footer part reference
(`FooterReference::new(type, id)`). -/
structure FooterReference where
  footer_type : String
  id : String
  deriving DecidableEq, Repr

/-- Modelled from the spec: a header part's content (`Header`); its
contents are not inspected by any code under study. -/
structure Header where
  deriving DecidableEq, Repr

/-- Modelled from the spec: a footer part's content (`Footer`). -/
structure Footer where
  deriving DecidableEq, Repr

/-- Modelled from the spec: the section-break vocabulary (`SectionType`). -/
inductive SectionType where
  | continuous | evenPage | nextColumn | nextPage | oddPage
  deriving DecidableEq, Repr

/-- Modelled from the spec: `SectionType::from_str`. -/
def SectionType.fromStr (s : String) : Option SectionType :=
  if s = "continuous" then some .continuous
  else if s = "evenPage" then some .evenPage
  else if s = "nextColumn" then some .nextColumn
  else if s = "nextPage" then some .nextPage
  else if s = "oddPage" then some .oddPage
  else none

/-- The `SectionProperty` entity, with the defaults of its
`impl Default` (one column, space 425, `lrTb` text direction). -/
structure SectionProperty where
  page_size : PageSize := PageSize.new
  page_margin : PageMargin := PageMargin.new
  columns : Nat := 1
  space : Nat := 425
  title_pg : Bool := false
  text_direction : String := "lrTb"
  doc_grid : Option DocGrid := none
  header_reference : Option HeaderReference := none
  header : Option (String × Header) := none
  first_header_reference : Option HeaderReference := none
  first_header : Option (String × Header) := none
  even_header_reference : Option HeaderReference := none
  even_header : Option (String × Header) := none
  footer_reference : Option FooterReference := none
  footer : Option (String × Footer) := none
  first_footer_reference : Option FooterReference := none
  first_footer : Option (String × Footer) := none
  even_footer_reference : Option FooterReference := none
  even_footer : Option (String × Footer) := none
  section_type : Option SectionType := none
  page_num_type : Option PageNumType := none
  deriving DecidableEq, Repr

/-- Model of `SectionProperty::new()`. -/
def SectionProperty.new : SectionProperty := {}

/-- Attribute set of a `w:pgSz` element (`SectionPageSizeXml`). -/
structure SectionPageSizeXml where
  w : Option String := none
  h : Option String := none
  deriving DecidableEq, Repr

/-- Attribute set of a `w:pgMar` element (`SectionPageMarginXml`). -/
structure SectionPageMarginXml where
  top : Option String := none
  right : Option String := none
  bottom : Option String := none
  left : Option String := none
  header : Option String := none
  footer : Option String := none
  gutter : Option String := none
  deriving DecidableEq, Repr

/-- Attribute set of a `w:docGrid` element (`SectionDocGridXml`). -/
structure SectionDocGridXml where
  grid_type : Option String := none
  line_pitch : Option String := none
  char_space : Option String := none
  deriving DecidableEq, Repr

/-- Attribute set of a `w:pgNumType` element (`SectionPageNumTypeXml`). -/
structure SectionPageNumTypeXml where
  start : Option String := none
  chap_style : Option String := none
  deriving DecidableEq, Repr

/-- Attribute set of a header/footer reference element
(`SectionReferenceXml`). -/
structure SectionReferenceXml where
  ref_type : Option String := none
  id : Option String := none
  deriving DecidableEq, Repr

/-- One tagged child of a `w:sectPr` block (`SectionPropertyChildXml`). -/
inductive SectionPropertyChildXml where
  | pageMargin (v : SectionPageMarginXml)
  | pageSize (v : SectionPageSizeXml)
  | docGrid (v : SectionDocGridXml)
  | pageNumType (v : SectionPageNumTypeXml)
  | headerReference (v : SectionReferenceXml)
  | footerReference (v : SectionReferenceXml)
  | sectionType (v : XmlValueAttr)
  | titlePg
  | unknown
  deriving DecidableEq, Repr

/-- Model of `parse_doc_grid` from `documents/elements/section_property.rs` (float
pitch/space values are parsed and truncated). -/
def parse_doc_grid (xml : SectionDocGridXml) : Option DocGrid :=
  let g : DocGrid := {}
  let g := match xml.grid_type.bind DocGridType.fromStr with
    | some t => { g with grid_type := some t }
    | none => g
  let g := match (xml.line_pitch.bind parseDecimal).map Dec.asUsize with
    | some lp => { g with line_pitch := some lp }
    | none => g
  let g := match (xml.char_space.bind parseDecimal).map Dec.asI32 with
    | some cs => { g with char_space := some cs }
    | none => g
  some g

/-- Model of `parse_page_num_type` from `documents/elements/section_property.rs`. -/
def parse_page_num_type (xml : SectionPageNumTypeXml) : PageNumType :=
  let p : PageNumType := {}
  let p := match xml.start.bind rustParseU32 with
    | some start => { p with start := some start }
    | none => p
  match xml.chap_style with
  | some chap_style => { p with chap_style := some chap_style }
  | none => p

/-- The `PageMargin` branch of `SectionProperty::deserialize`: start from
the default margins and overwrite each field whose attribute parses. -/
def parse_page_margin_xml (v : SectionPageMarginXml) : PageMargin :=
  let margin := PageMargin.new
  let margin := match parse_dxa_i32 v.top with
    | some top => { margin with top := top }
    | none => margin
  let margin := match parse_dxa_i32 v.right with
    | some right => { margin with right := right }
    | none => margin
  let margin := match parse_dxa_i32 v.bottom with
    | some bottom => { margin with bottom := bottom }
    | none => margin
  let margin := match parse_dxa_i32 v.left with
    | some left => { margin with left := left }
    | none => margin
  let margin := match parse_dxa_i32 v.header with
    | some header => { margin with header := header }
    | none => margin
  let margin := match parse_dxa_i32 v.footer with
    | some footer => { margin with footer := footer }
    | none => margin
  match parse_dxa_i32 v.gutter with
  | some gutter => { margin with gutter := gutter }
  | none => margin

/-- The `PageSize` branch of `SectionProperty::deserialize`. -/
def parse_page_size_xml (v : SectionPageSizeXml) : PageSize :=
  let size := PageSize.new
  let size := match parse_dxa_u32 v.w with
    | some w => size.width w
    | none => size
  match parse_dxa_u32 v.h with
  | some h => size.height h
  | none => size

/-- One step of the child loop of `SectionProperty::deserialize`.  Note
that the `pgSz`/`pgMar`/`docGrid`/`pgNumType` branches overwrite the
accumulated field unconditionally, so a duplicated element resolves to its
last occurrence. -/
def SectionProperty.applyChild (sp : SectionProperty) :
    SectionPropertyChildXml → SectionProperty
  | .pageMargin v => { sp with page_margin := parse_page_margin_xml v }
  | .pageSize v => { sp with page_size := parse_page_size_xml v }
  | .docGrid v =>
      match parse_doc_grid v with
      | some doc_grid => { sp with doc_grid := some doc_grid }
      | none => sp
  | .pageNumType v => { sp with page_num_type := some (parse_page_num_type v) }
  | .headerReference v =>
      let rid := v.id.getD ""
      let header_type := v.ref_type.getD "default"
      if header_type = "default" then
        { sp with header_reference := some ⟨header_type, rid⟩ }
      else if header_type = "first" then
        { sp with first_header_reference := some ⟨header_type, rid⟩ }
      else if header_type = "even" then
        { sp with even_header_reference := some ⟨header_type, rid⟩ }
      else sp
  | .footerReference v =>
      let rid := v.id.getD ""
      let footer_type := v.ref_type.getD "default"
      if footer_type = "default" then
        { sp with footer_reference := some ⟨footer_type, rid⟩ }
      else if footer_type = "first" then
        { sp with first_footer_reference := some ⟨footer_type, rid⟩ }
      else if footer_type = "even" then
        { sp with even_footer_reference := some ⟨footer_type, rid⟩ }
      else sp
  | .sectionType v =>
      match v.val.bind SectionType.fromStr with
      | some section_type => { sp with section_type := some section_type }
      | none => sp
  | .titlePg => { sp with title_pg := true }
  | .unknown => sp

/-- Model of `impl Deserialize for SectionProperty`: fold the `w:sectPr` child list
over `SectionProperty::new()`. -/
def SectionProperty.deserialize (children : List SectionPropertyChildXml) :
    SectionProperty :=
  children.foldl SectionProperty.applyChild SectionProperty.new

/-! ## Inline payload entities

The leaf entities carried by runs and markers.  Most of their defining
files are not among the sources (only their constructors are invoked by
the code under study); each is carried with the fields that the in-repo
callers and serialized fixtures exhibit. -/

/-- Modelled from the spec: a literal text payload (`Text`); `Text::new`
preserves significant whitespace (`xml:space="preserve"`). -/
structure Text where
  preserve_space : Bool
  text : String
  deriving DecidableEq, Repr

/-- Model of `Text::new`. -/
def Text.new (text : String) : Text :=
  { preserve_space := true, text := text }

/-- Modelled from the spec: deleted text inside a tracked deletion
(`DeleteText`). -/
structure DeleteText where
  text : String
  preserve_space : Bool
  deriving DecidableEq, Repr

/-- Model of `DeleteText::new`. -/
def DeleteText.new (text : String) : DeleteText :=
  { text := text, preserve_space := true }

/-- Modelled from the spec: a symbol payload (`Sym::new(font, char)`). -/
structure Sym where
  font : String
  char_code : String
  deriving DecidableEq, Repr

/-- Modelled from the spec: a tab payload (`Tab`). -/
structure Tab where
  deriving DecidableEq, Repr

/-- Modelled from the spec: a positional tab (`PositionalTab`), carried
as its three vocabulary tags. -/
structure PositionalTab where
  alignment : String
  relative_to : String
  leader : String
  deriving DecidableEq, Repr

/-- Modelled from the spec: a line/page break (`Break`), carried as its
break-type tag. -/
structure Break where
  break_type : String
  deriving DecidableEq, Repr

/-- Modelled from the spec: an anchored or inline drawing (`Drawing`);
its contents are not inspected by the code under study. -/
structure Drawing where
  deriving DecidableEq, Repr

/-- Modelled from the spec: a free-floating legacy shape (`Shape`), a
reader-only entity. -/
structure Shape where
  deriving DecidableEq, Repr

/-- Modelled from the spec: a field character (`FieldChar`), carried as
its type tag plus the dirty flag. -/
structure FieldChar where
  field_char_type : String
  dirty : Bool
  deriving DecidableEq, Repr

/-- Modelled from the spec: a typed field-instruction payload
(`InstrText`), carried as its raw instruction string. -/
structure InstrText where
  instr : String
  deriving DecidableEq, Repr

/-- Modelled from the spec: a deleted field-instruction payload
(`DeleteInstrText`). -/
structure DeleteInstrText where
  instr : String
  deriving DecidableEq, Repr

/-- Modelled from the spec: a footnote reference
(`FootnoteReference::new(id)`). -/
structure FootnoteReference where
  id : Nat
  deriving DecidableEq, Repr

/-- Modelled from the spec: run/cell shading (`Shading`), whose defaults
appear in the serialized fixtures as `clear`/`auto`/`FFFFFF`. -/
structure Shading where
  shd_type : String := "clear"
  color : String := "auto"
  fill : String := "FFFFFF"
  deriving DecidableEq, Repr

/-- Model of `BookmarkStart::new(id, name)`. -/
structure BookmarkStart where
  id : Nat
  name : String
  deriving DecidableEq, Repr

/-- Model of `BookmarkEnd::new(id)`. -/
structure BookmarkEnd where
  id : Nat
  deriving DecidableEq, Repr

/-- Modelled from the spec: a comment (`Comment::new(id)`); only the
identifier is carried. -/
structure Comment where
  id : Nat
  deriving DecidableEq, Repr

/-- Model of `CommentRangeStart::new(comment)`. -/
structure CommentRangeStart where
  comment : Comment
  deriving DecidableEq, Repr

/-- Model of `CommentRangeEnd::new(id)`. -/
structure CommentRangeEnd where
  id : Nat
  deriving DecidableEq, Repr

/-- Modelled from the spec: a paragraph node (`Paragraph`).  Its defining
file is not among the sources; the containers under study read only its
cached `has_numbering` flag (true when the paragraph references a
numbering definition). -/
structure Paragraph where
  has_numbering : Bool := false
  deriving DecidableEq, Repr

/-- Model of `Paragraph::new()`. -/
def Paragraph.new : Paragraph := {}

/-- The mutually exclusive payload kinds of one run child slot
(`RunChild` in `documents/elements/run.rs`). -/
inductive RunChild where
  | text (t : Text)
  | sym (s : Sym)
  | deleteText (t : DeleteText)
  | tab (t : Tab)
  | ptab (t : PositionalTab)
  | break_ (b : Break)
  | drawing (d : Drawing)
  | shape (s : Shape)
  | commentStart (c : CommentRangeStart)
  | commentEnd (c : CommentRangeEnd)
  | fieldChar (f : FieldChar)
  | instrText (i : InstrText)
  | deleteInstrText (i : DeleteInstrText)
  | instrTextString (s : String)
  | footnoteReference (f : FootnoteReference)
  | shading (s : Shading)
  deriving DecidableEq, Repr

/-- The `Run` entity (`documents/elements/run.rs`). -/
structure Run where
  run_property : RunProperty := RunProperty.new
  children : List RunChild := []
  deriving DecidableEq, Repr

/-- Model of `Run::new()`. -/
def Run.new : Run := {}

/-- Rust `String::replace('\n', "")` as invoked by the text builders:
every newline character is removed, scanning left to right. -/
def removeNewlines : List Char → List Char
  | [] => []
  | c :: rest =>
      if c = '\n' then removeNewlines rest else c :: removeNewlines rest

/-- Model of `Run::add_text`: pushes a `Text` child built from the input with all
newline characters removed. -/
def Run.add_text (r : Run) (text : String) : Run :=
  { r with children :=
      r.children ++ [RunChild.text (Text.new ⟨removeNewlines text.data⟩)] }

/-- Model of `Run::add_delete_text`: same newline removal for deleted text. -/
def Run.add_delete_text (r : Run) (text : String) : Run :=
  { r with children :=
      r.children ++
        [RunChild.deleteText (DeleteText.new ⟨removeNewlines text.data⟩)] }

/-- Model of `Run::add_field_char`. -/
def Run.add_field_char (r : Run) (t : String) (dirty : Bool) : Run :=
  { r with children :=
      r.children ++ [RunChild.fieldChar ⟨t, dirty⟩] }

/-- Model of `Run::add_tab`. -/
def Run.add_tab (r : Run) : Run :=
  { r with children := r.children ++ [RunChild.tab ⟨⟩] }

/-- Modelled from the spec: a generated table-of-contents fragment
(`TableOfContents`); its contents are not inspected by the code under
study. -/
structure TableOfContents where
  deriving DecidableEq, Repr

/-- Modelled from the spec: a nested section marker (`Section`). -/
structure Section where
  deriving DecidableEq, Repr

/-- Modelled from the spec: table-level formatting (`TableProperty`),
not inspected by the code under study. -/
structure TableProperty where
  deriving DecidableEq, Repr

/-- Modelled from the spec: row-level formatting (`TableRowProperty`). -/
structure TableRowProperty where
  deriving DecidableEq, Repr

/-- Modelled from the spec: cell-level formatting (`TableCellProperty`). -/
structure TableCellProperty where
  deriving DecidableEq, Repr

/-- Model of `DataBinding` from `documents/elements/data_binding.rs`. -/
structure DataBinding where
  xpath : Option String := none
  prefix_mappings : Option String := none
  store_item_id : Option String := none
  deriving DecidableEq, Repr

/-- Model of `StructuredDataTagProperty` from
`documents/elements/structured_data_tag_property.rs` (the `alias` field is
the tag's display name). -/
structure StructuredDataTagProperty where
  run_property : RunProperty := RunProperty.new
  data_binding : Option DataBinding := none
  «alias» : Option String := none
  deriving DecidableEq, Repr

/-! ## The recursive container tree

`Table → TableRow → TableCell → {Paragraph, Table, StructuredDataTag}` and
the self-recursive `StructuredDataTag` are one mutual nest
(`documents/elements/table.rs`, `table_row.rs`, `table_cell.rs`,
`structured_data_tag.rs`). -/

mutual

/-- The `Table` entity. -/
inductive Table where
  | mk (rows : List TableChild) (grid : List Nat) (has_numbering : Bool)
      (property : TableProperty)

/-- The single legal child kind of a table (`TableChild`). -/
inductive TableChild where
  | tableRow (r : TableRow)

/-- The `TableRow` entity. -/
inductive TableRow where
  | mk (cells : List TableRowChild) (has_numbering : Bool)
      (property : TableRowProperty)

/-- The single legal child kind of a row (`TableRowChild`). -/
inductive TableRowChild where
  | tableCell (c : TableCell)

/-- The `TableCell` entity. -/
inductive TableCell where
  | mk (children : List TableCellContent) (property : TableCellProperty)
      (has_numbering : Bool)

/-- The legal child kinds of a cell (`TableCellContent`). -/
inductive TableCellContent where
  | paragraph (p : Paragraph)
  | table (t : Table)
  | structuredDataTag (t : StructuredDataTag)
  | tableOfContents (t : TableOfContents)

/-- The `StructuredDataTag` entity. -/
inductive StructuredDataTag where
  | mk (children : List StructuredDataTagChild)
      (property : StructuredDataTagProperty) (has_numbering : Bool)

/-- The legal child kinds of a structured tag (`StructuredDataTagChild`). -/
inductive StructuredDataTagChild where
  | run (r : Run)
  | paragraph (p : Paragraph)
  | table (t : Table)
  | bookmarkStart (b : BookmarkStart)
  | bookmarkEnd (b : BookmarkEnd)
  | commentStart (c : CommentRangeStart)
  | commentEnd (c : CommentRangeEnd)
  | structuredDataTag (t : StructuredDataTag)

end

/-- Projection: a table's rows. -/
def Table.rows : Table → List TableChild
  | .mk rows _ _ _ => rows

/-- Projection: a table's cached numbering flag. -/
def Table.has_numbering : Table → Bool
  | .mk _ _ h _ => h

/-- Projection: a row's cached numbering flag. -/
def TableRow.has_numbering : TableRow → Bool
  | .mk _ h _ => h

/-- Projection: a row's cells. -/
def TableRow.cells : TableRow → List TableRowChild
  | .mk cells _ _ => cells

/-- Projection: a cell's children. -/
def TableCell.children : TableCell → List TableCellContent
  | .mk children _ _ => children

/-- Projection: a cell's cached numbering flag. -/
def TableCell.has_numbering : TableCell → Bool
  | .mk _ _ h => h

/-- Projection: a structured tag's children. -/
def StructuredDataTag.children : StructuredDataTag → List StructuredDataTagChild
  | .mk children _ _ => children

/-- Projection: a structured tag's property block. -/
def StructuredDataTag.property : StructuredDataTag → StructuredDataTagProperty
  | .mk _ property _ => property

/-- Projection: a structured tag's cached numbering flag. -/
def StructuredDataTag.has_numbering : StructuredDataTag → Bool
  | .mk _ _ h => h

/-! ## Builders of the container tree -/

/-- Model of `TableRow::new(cells)`: the row's numbering flag is the disjunction of
the cells' flags. -/
def TableRow.new (cells : List TableCell) : TableRow :=
  .mk (cells.map TableRowChild.tableCell)
    (cells.any TableCell.has_numbering) ⟨⟩

/-- Model of `Table::new(rows)`. -/
def Table.new (rows : List TableRow) : Table :=
  .mk (rows.map TableChild.tableRow) [] (rows.any TableRow.has_numbering) ⟨⟩

/-- Model of `Table::add_row` (note: unlike `Table::new`, it does not refresh the
cached numbering flag). -/
def Table.add_row (t : Table) (row : TableRow) : Table :=
  match t with
  | .mk rows grid h property =>
      .mk (rows ++ [TableChild.tableRow row]) grid h property

/-- Model of `TableCell::new()` (`Default`: no children, empty property, numbering
flag unset). -/
def TableCell.new : TableCell := .mk [] ⟨⟩ false

/-- Model of `TableCell::add_paragraph`: attaches the paragraph and raises the
cached numbering flag when the paragraph carries one. -/
def TableCell.add_paragraph (c : TableCell) (p : Paragraph) : TableCell :=
  match c with
  | .mk children property h =>
      .mk (children ++ [TableCellContent.paragraph p]) property
        (h || p.has_numbering)

/-- Model of `TableCell::add_table`: attaches the table and raises the cached
numbering flag when the table carries one. -/
def TableCell.add_table (c : TableCell) (t : Table) : TableCell :=
  match c with
  | .mk children property h =>
      .mk (children ++ [TableCellContent.table t]) property
        (h || t.has_numbering)

/-- Model of `TableCell::add_structured_data_tag`: attaches the tag.  The source
pushes the child without consulting `t.has_numbering`, so the cell's
cached flag is left unchanged. -/
def TableCell.add_structured_data_tag (c : TableCell) (t : StructuredDataTag) :
    TableCell :=
  match c with
  | .mk children property h =>
      .mk (children ++ [TableCellContent.structuredDataTag t]) property h

/-- Model of `TableCell::add_table_of_contents`. -/
def TableCell.add_table_of_contents (c : TableCell) (t : TableOfContents) :
    TableCell :=
  match c with
  | .mk children property h =>
      .mk (children ++ [TableCellContent.tableOfContents t]) property h

/-- Model of `StructuredDataTag::new()` (`Default`). -/
def StructuredDataTag.new : StructuredDataTag := .mk [] {} false

/-- Model of `StructuredDataTag::add_run` (runs carry no numbering flag). -/
def StructuredDataTag.add_run (t : StructuredDataTag) (run : Run) :
    StructuredDataTag :=
  match t with
  | .mk children property h =>
      .mk (children ++ [StructuredDataTagChild.run run]) property h

/-- Model of `StructuredDataTag::add_paragraph`: raises the cached numbering flag
when the paragraph carries one. -/
def StructuredDataTag.add_paragraph (t : StructuredDataTag) (p : Paragraph) :
    StructuredDataTag :=
  match t with
  | .mk children property h =>
      .mk (children ++ [StructuredDataTagChild.paragraph p]) property
        (h || p.has_numbering)

/-- Model of `StructuredDataTag::add_table`. -/
def StructuredDataTag.add_table (t : StructuredDataTag) (tbl : Table) :
    StructuredDataTag :=
  match t with
  | .mk children property h =>
      .mk (children ++ [StructuredDataTagChild.table tbl]) property
        (h || tbl.has_numbering)

/-- Model of `StructuredDataTag::alias`. -/
def StructuredDataTag.aliasName (t : StructuredDataTag) (v : String) :
    StructuredDataTag :=
  match t with
  | .mk children property h =>
      .mk children { property with «alias» := some v } h

/-! ## Structured-data-tag reader
(`documents/elements/structured_data_tag.rs`) -/

/-- A `w:bookmarkStart` attribute pair (`XmlBookmarkStartNode`). -/
structure XmlBookmarkStartNode where
  id : Option String := none
  name : Option String := none
  deriving DecidableEq, Repr

/-- A bare `w:id` attribute (`XmlIdNode`). -/
structure XmlIdNode where
  id : Option String := none
  deriving DecidableEq, Repr

/-- One tagged child of a `w:sdtContent` block (`SdtContentChildXml`);
unrecognised tags collapse to `unknown` via `#[serde(other)]`. -/
inductive SdtContentChildXml where
  | run (r : Run)
  | paragraph (p : Paragraph)
  | table (t : Table)
  | bookmarkStart (node : XmlBookmarkStartNode)
  | bookmarkEnd (node : XmlIdNode)
  | commentStart (node : XmlIdNode)
  | commentEnd (node : XmlIdNode)
  | structuredDataTag (t : StructuredDataTag)
  | unknown

/-- Model of `sdt_child_from_xml`: the reader-side mapping from the tagged
intermediate representation onto `StructuredDataTagChild`.  A bookmark
marker with a missing or unparsable id, or a bookmark start missing its
name, maps to `none` (the child is dropped), as does `unknown`. -/
def sdt_child_from_xml : SdtContentChildXml → Option StructuredDataTagChild
  | .run run => some (StructuredDataTagChild.run run)
  | .paragraph p => some (StructuredDataTagChild.paragraph p)
  | .table t => some (StructuredDataTagChild.table t)
  | .bookmarkStart node =>
      (parse_optional_usize node.id).bind fun id =>
        node.name.map fun name =>
          StructuredDataTagChild.bookmarkStart ⟨id, name⟩
  | .bookmarkEnd node =>
      (parse_optional_usize node.id).map fun id =>
        StructuredDataTagChild.bookmarkEnd ⟨id⟩
  | .commentStart node =>
      (parse_optional_usize node.id).map fun id =>
        StructuredDataTagChild.commentStart ⟨⟨id⟩⟩
  | .commentEnd node =>
      (parse_optional_usize node.id).map fun id =>
        StructuredDataTagChild.commentEnd ⟨id⟩
  | .structuredDataTag sdt =>
      some (StructuredDataTagChild.structuredDataTag sdt)
  | .unknown => none

/-- The numbering flag contributed by one parsed child (the `match` inside
`StructuredDataTag::deserialize`). -/
def sdtChildHasNumbering : StructuredDataTagChild → Bool
  | .paragraph p => p.has_numbering
  | .table t => t.has_numbering
  | .structuredDataTag s => s.has_numbering
  | _ => false

/-- Model of `impl Deserialize for StructuredDataTag`: children are the
`filter_map` of the content block through `sdt_child_from_xml`; the
numbering flag is recomputed from the kept children; a missing property
block defaults. -/
def StructuredDataTag.deserialize
    (property : Option StructuredDataTagProperty)
    (content : Option (List SdtContentChildXml)) : StructuredDataTag :=
  let children := (content.map fun c => c.filterMap sdt_child_from_xml).getD []
  .mk children (property.getD {}) (children.any sdtChildHasNumbering)

/-! ## Document children and the document reader
(`documents/document.rs`) -/

/-- The legal top-level children of a document body (`DocumentChild`). -/
inductive DocumentChild where
  | paragraph (p : Paragraph)
  | table (t : Table)
  | bookmarkStart (b : BookmarkStart)
  | bookmarkEnd (b : BookmarkEnd)
  | commentStart (c : CommentRangeStart)
  | commentEnd (c : CommentRangeEnd)
  | structuredDataTag (t : StructuredDataTag)
  | tableOfContents (t : TableOfContents)
  | section (s : Section)

/-- One tagged child of a `w:body` block (`DocumentChildXml`).  A `w:sdt`
child is consumed as `IgnoredAny` (its contents discarded), so the
constructor carries no payload. -/
inductive DocumentChildXml where
  | paragraph (p : Paragraph)
  | table (t : Table)
  | bookmarkStart (node : XmlBookmarkStartNode)
  | bookmarkEnd (node : XmlIdNode)
  | commentStart (node : XmlIdNode)
  | commentEnd (node : XmlIdNode)
  | structuredDataTag
  | sectionProperty (sp : SectionProperty)
  | unknown

/-- Model of `document_child_from_xml`: the reader-side mapping from the tagged
intermediate representation onto `DocumentChild`.  A `w:sdt` child maps to
`none` (dropped), as do unknown tags and malformed markers; the section
property is handled separately by the caller. -/
def document_child_from_xml : DocumentChildXml → Option DocumentChild
  | .paragraph p => some (DocumentChild.paragraph p)
  | .table t => some (DocumentChild.table t)
  | .bookmarkStart node =>
      (parse_optional_usize node.id).bind fun id =>
        node.name.map fun name => DocumentChild.bookmarkStart ⟨id, name⟩
  | .bookmarkEnd node =>
      (parse_optional_usize node.id).map fun id =>
        DocumentChild.bookmarkEnd ⟨id⟩
  | .commentStart node =>
      (parse_optional_usize node.id).map fun id =>
        DocumentChild.commentStart ⟨⟨id⟩⟩
  | .commentEnd node =>
      (parse_optional_usize node.id).map fun id =>
        DocumentChild.commentEnd ⟨id⟩
  | .structuredDataTag => none
  | .sectionProperty _ => none
  | .unknown => none

/-- The `Document` entity. -/
structure Document where
  children : List DocumentChild := []
  section_property : SectionProperty := SectionProperty.new
  has_numbering : Bool := false

/-- Model of `Document::new()` (`Default`). -/
def Document.new : Document := {}

/-- The loop body of `impl Deserialize for Document`: a `w:sectPr` child
replaces the section property; any other child is mapped through
`document_child_from_xml`, kept children are appended, and a kept
paragraph or table with the numbering flag raises the document's flag. -/
def Document.applyBodyChild (doc : Document) (child : DocumentChildXml) :
    Document :=
  match child with
  | .sectionProperty sp => { doc with section_property := sp }
  | other =>
      match document_child_from_xml other with
      | some mapped =>
          let has_numbering :=
            match mapped with
            | .paragraph p => doc.has_numbering || p.has_numbering
            | .table t => doc.has_numbering || t.has_numbering
            | _ => doc.has_numbering
          { doc with
            children := doc.children ++ [mapped]
            has_numbering := has_numbering }
      | none => doc

/-- Model of `impl Deserialize for Document`: fold the body's tagged children over
the default document. -/
def Document.deserialize (body : List DocumentChildXml) : Document :=
  body.foldl Document.applyBodyChild {}

/-- Model of `Document::add_paragraph`. -/
def Document.add_paragraph (doc : Document) (p : Paragraph) : Document :=
  { doc with
    has_numbering := doc.has_numbering || p.has_numbering,
    children := doc.children ++ [DocumentChild.paragraph p] }

/-- Model of `Document::add_table`. -/
def Document.add_table (doc : Document) (t : Table) : Document :=
  { doc with
    has_numbering := doc.has_numbering || t.has_numbering,
    children := doc.children ++ [DocumentChild.table t] }

/-- Model of `Document::add_bookmark_start`. -/
def Document.add_bookmark_start (doc : Document) (id : Nat) (name : String) :
    Document :=
  { doc with children := doc.children ++ [DocumentChild.bookmarkStart ⟨id, name⟩] }

/-- Model of `Document::add_bookmark_end`. -/
def Document.add_bookmark_end (doc : Document) (id : Nat) : Document :=
  { doc with children := doc.children ++ [DocumentChild.bookmarkEnd ⟨id⟩] }

/-- Model of `Document::add_comment_start`. -/
def Document.add_comment_start (doc : Document) (comment : Comment) : Document :=
  { doc with children := doc.children ++ [DocumentChild.commentStart ⟨comment⟩] }

/-- Model of `Document::add_comment_end`. -/
def Document.add_comment_end (doc : Document) (id : Nat) : Document :=
  { doc with children := doc.children ++ [DocumentChild.commentEnd ⟨id⟩] }

/-- Model of `Document::add_structured_data_tag`: raises the numbering flag from
the tag's cached flag (unlike the table-cell builder). -/
def Document.add_structured_data_tag (doc : Document) (t : StructuredDataTag) :
    Document :=
  { doc with
    has_numbering := doc.has_numbering || t.has_numbering,
    children := doc.children ++ [DocumentChild.structuredDataTag t] }

/-- Model of `Document::add_table_of_contents`. -/
def Document.add_table_of_contents (doc : Document) (t : TableOfContents) :
    Document :=
  { doc with children := doc.children ++ [DocumentChild.tableOfContents t] }

/-! ## Table-cell reader mapping (`documents/elements/table_cell.rs`) -/

/-- One tagged child of a `w:tc` element (`TableCellChildXml`); `w:sdt`
and `w:tcPr` children are consumed as `IgnoredAny`. -/
inductive TableCellChildXml where
  | paragraph (p : Paragraph)
  | table (t : Table)
  | structuredDataTag
  | tableCellProperty
  | unknown

/-- Model of `table_cell_child_from_xml`: the reader-side mapping onto
`TableCellContent`.  Structured tags, the property block and unknown tags
all map to `none`. -/
def table_cell_child_from_xml : TableCellChildXml → Option TableCellContent
  | .paragraph p => some (TableCellContent.paragraph p)
  | .table t => some (TableCellContent.table t)
  | .structuredDataTag => none
  | .tableCellProperty => none
  | .unknown => none

/-! ## Canonical writer models

The writer emits a flat XML event stream; the models below abstract each
emitted child element to its kind, which is what the structural claims
quantify over. -/

/-- The kinds of immediate child elements a `w:tc` emission produces. -/
inductive TcEmitted where
  | tcPr
  | paragraph
  | table
  | sdt
  | toc
  deriving DecidableEq, Repr

/-- Model of `impl BuildXML for TableCell`, abstracted to the sequence of child
elements emitted inside `w:tc`: the property block first, then each child
in order — with an empty paragraph appended after a nested table when the
cell has exactly one child — and an empty paragraph when the cell has no
children at all. -/
def TableCell.buildChildren (c : TableCell) : List TcEmitted :=
  [TcEmitted.tcPr] ++
    (c.children.map fun ch =>
      match ch with
      | TableCellContent.paragraph _ => [TcEmitted.paragraph]
      | TableCellContent.table _ =>
          [TcEmitted.table] ++
            (if c.children.length = 1 then [TcEmitted.paragraph] else [])
      | TableCellContent.structuredDataTag _ => [TcEmitted.sdt]
      | TableCellContent.tableOfContents _ => [TcEmitted.toc]).flatten ++
    (if c.children.isEmpty then [TcEmitted.paragraph] else [])

/-- The outcome of one writer step: either a sequence of emitted elements
(abstracted to their root tags) or a Rust panic carrying its message. -/
inductive BuildOutcome where
  | ok (tags : List String)
  | panic (msg : String)
  deriving DecidableEq, Repr

/-- The message of `todo!("Support shape writer.")`. -/
def shapeTodoMsg : String :=
  "not yet implemented: Support shape writer."

/-- The message of `unreachable!()`. -/
def unreachableMsg : String :=
  "internal error: entered unreachable code"

/-- Model of `impl BuildXML for RunChild`: every writer-supported payload delegates
to its element writer (abstracted here to the element tag); a `Shape`
child panics with a not-implemented report (`todo!`), and the reader-only
`InstrTextString` child panics as unreachable code (`unreachable!`). -/
def RunChild.build : RunChild → BuildOutcome
  | .text _ => .ok ["w:t"]
  | .sym _ => .ok ["w:sym"]
  | .deleteText _ => .ok ["w:delText"]
  | .tab _ => .ok ["w:tab"]
  | .ptab _ => .ok ["w:ptab"]
  | .break_ _ => .ok ["w:br"]
  | .drawing _ => .ok ["w:drawing"]
  | .shape _ => .panic shapeTodoMsg
  | .commentStart _ => .ok ["w:commentRangeStart"]
  | .commentEnd _ => .ok ["w:commentRangeEnd"]
  | .fieldChar _ => .ok ["w:fldChar"]
  | .instrText _ => .ok ["w:instrText"]
  | .deleteInstrText _ => .ok ["w:delInstrText"]
  | .instrTextString _ => .panic unreachableMsg
  | .footnoteReference _ => .ok ["w:footnoteReference"]
  | .shading _ => .ok ["w:shd"]

/-- Whether a writer outcome is a reported "not implemented" condition
(the message a `todo!` panic produces). -/
def BuildOutcome.isNotImplementedReport : BuildOutcome → Bool
  | .panic msg => "not yet implemented".data.isPrefixOf msg.data
  | .ok _ => false

/-- Whether a writer outcome emitted any markup. -/
def BuildOutcome.emitted : BuildOutcome → Bool
  | .ok tags => !tags.isEmpty
  | .panic _ => false

/-! ## Helper lemmas -/

/-- The newline-removal scan of the text builders is exactly the filter
that deletes every `'\n'` character. -/
theorem removeNewlines_eq_filter (cs : List Char) :
    removeNewlines cs = cs.filter (fun c => c ≠ '\n') := by
  induction cs with
  | nil => rfl
  | cons c rest ih =>
      by_cases h : c = '\n' <;> simp [removeNewlines, List.filter, h, ih]

/-! ## Claim theorems -/

/-- C1, counterexample: the structured-data-tag child kind is addable via
the builder API of both `Document` and `TableCell` (the tag is pushed onto
the children list), yet the reader's child mappings send a parsed `w:sdt`
child to `none` — so the kind is not representable by the reader's mapping
and a built-then-reloaded document silently loses such children. -/
theorem C1_counterexample :
    document_child_from_xml DocumentChildXml.structuredDataTag = none ∧
    table_cell_child_from_xml TableCellChildXml.structuredDataTag = none ∧
    (Document.new.add_structured_data_tag StructuredDataTag.new).children =
      [DocumentChild.structuredDataTag StructuredDataTag.new] ∧
    (TableCell.new.add_structured_data_tag StructuredDataTag.new).children =
      [TableCellContent.structuredDataTag StructuredDataTag.new] :=
  ⟨rfl, rfl, rfl, rfl⟩

/-- C1, amended: the reader's child mapping covers every other
builder-addable child kind of the same container — paragraphs, tables and
(for the document body) well-formed bookmark and comment-range markers map
one-to-one onto the model child — while a structured data tag maps to
`none` at both container levels. -/
theorem C1_amended_mapping_sync :
    (∀ p : Paragraph,
      document_child_from_xml (DocumentChildXml.paragraph p) =
        some (DocumentChild.paragraph p)) ∧
    (∀ t : Table,
      document_child_from_xml (DocumentChildXml.table t) =
        some (DocumentChild.table t)) ∧
    document_child_from_xml
        (DocumentChildXml.bookmarkStart ⟨some "1", some "target"⟩) =
      some (DocumentChild.bookmarkStart ⟨1, "target"⟩) ∧
    document_child_from_xml (DocumentChildXml.bookmarkEnd ⟨some "1"⟩) =
      some (DocumentChild.bookmarkEnd ⟨1⟩) ∧
    document_child_from_xml (DocumentChildXml.commentStart ⟨some "2"⟩) =
      some (DocumentChild.commentStart ⟨⟨2⟩⟩) ∧
    document_child_from_xml (DocumentChildXml.commentEnd ⟨some "2"⟩) =
      some (DocumentChild.commentEnd ⟨2⟩) ∧
    (∀ p : Paragraph,
      table_cell_child_from_xml (TableCellChildXml.paragraph p) =
        some (TableCellContent.paragraph p)) ∧
    (∀ t : Table,
      table_cell_child_from_xml (TableCellChildXml.table t) =
        some (TableCellContent.table t)) ∧
    document_child_from_xml DocumentChildXml.structuredDataTag = none ∧
    table_cell_child_from_xml TableCellChildXml.structuredDataTag = none := by
  refine ⟨fun p => rfl, fun t => rfl, ?_, ?_, ?_, ?_,
    fun p => rfl, fun t => rfl, rfl, rfl⟩ <;> rfl

/-- C2: the `has_numbering` invariant is broken by
`TableCell::add_structured_data_tag`.  A structured tag holding a numbered
paragraph carries the flag, and attaching it to a document raises the
document's flag, but attaching it to a table cell leaves the cell's flag
false — even though attaching the same paragraph directly would raise
it. -/
theorem C2_cell_sdt_numbering_not_propagated :
    (StructuredDataTag.new.add_paragraph ⟨true⟩).has_numbering = true ∧
    (TableCell.new.add_structured_data_tag
        (StructuredDataTag.new.add_paragraph ⟨true⟩)).has_numbering = false ∧
    (Document.new.add_structured_data_tag
        (StructuredDataTag.new.add_paragraph ⟨true⟩)).has_numbering = true ∧
    (TableCell.new.add_paragraph ⟨true⟩).has_numbering = true ∧
    (StructuredDataTag.deserialize none
        (some [SdtContentChildXml.paragraph ⟨true⟩])).has_numbering = true :=
  ⟨rfl, rfl, rfl, rfl, rfl⟩

/-- C3, counterexample: duplicate `w:pgSz` elements in a `w:sectPr` block
do not resolve first-wins — the second occurrence's width (200) is kept
rather than the first one's (100). -/
theorem C3_counterexample :
    (SectionProperty.deserialize
        [SectionPropertyChildXml.pageSize ⟨some "100", none⟩,
         SectionPropertyChildXml.pageSize ⟨some "200", none⟩]).page_size.w
      = 200 ∧
    (SectionProperty.deserialize
        [SectionPropertyChildXml.pageSize ⟨some "100", none⟩]).page_size.w
      = 100 ∧
    ¬ (SectionProperty.deserialize
        [SectionPropertyChildXml.pageSize ⟨some "100", none⟩,
         SectionPropertyChildXml.pageSize ⟨some "200", none⟩]).page_size.w
      = 100 := by
  refine ⟨by decide, by decide, by decide⟩

/-- C3, amended: first-wins duplicate resolution holds for the
run-properties container (a duplicated toggle slot is stored only while
unset, so two bold toggles resolve to the first, and through the coercion
a `1`-then-`0` pair yields bold on); the section-property deserializer
instead overwrites on every occurrence, so duplicated `w:pgSz` or
`w:pgMar` elements resolve to the last occurrence. -/
theorem C3_amended_duplicate_resolution :
    (∀ v1 v2 : XmlOnOffAttr,
      (RunPropertyXml.deserialize
          [RunPropertyChildXml.bold v1, RunPropertyChildXml.bold v2]).bold =
        some v1) ∧
    (parse_run_property_xml (some (RunPropertyXml.deserialize
        [RunPropertyChildXml.bold ⟨some "1"⟩,
         RunPropertyChildXml.bold ⟨some "0"⟩]))).bold = some true ∧
    (∀ s1 s2 : SectionPageSizeXml,
      (SectionProperty.deserialize
          [SectionPropertyChildXml.pageSize s1,
           SectionPropertyChildXml.pageSize s2]).page_size =
        parse_page_size_xml s2) ∧
    (∀ m1 m2 : SectionPageMarginXml,
      (SectionProperty.deserialize
          [SectionPropertyChildXml.pageMargin m1,
           SectionPropertyChildXml.pageMargin m2]).page_margin =
        parse_page_margin_xml m2) := by
  refine ⟨fun v1 v2 => rfl, by decide, fun s1 s2 => rfl, fun m1 m2 => rfl⟩

/-- C4, counterexample: there is no single shared on/off implementation.
The style-side parser treats `off` as true (only `0`/`false` are false),
while the drawing-side parser treats `off` as false; and for an absent
drawing attribute the result is the caller's per-flag default (the
`layoutInCell` call passes true), not uniformly false. -/
theorem C4_counterexample :
    parse_on_off (some "off") = true ∧
    parse_on_off_drawing (some "off") false = false ∧
    parse_on_off_drawing (some "off") true = false ∧
    parse_on_off_drawing none true = true := by
  refine ⟨by decide, by decide, by decide, by decide⟩

/-- C4, amended: on the documented vocabulary the sites agree — absence of
a toggle value (or an empty/`1`/`true` value) reads as true and `0`/`false`
as false at every site, the run-side and table-row-side parsers are
extensionally identical to the style-side one, and an absent element leaves
the model field unset — but the drawing-side parser is a distinct
implementation with its own `off`/`on` spellings and per-flag defaults. -/
theorem C4_amended_on_off_sites :
    (∀ v : String, parse_on_off_run v = parse_on_off (some v)) ∧
    (∀ v : Option String, parse_on_off_table_row v = parse_on_off v) ∧
    parse_on_off none = true ∧
    (∀ d : Bool, parse_on_off_drawing none d = d) ∧
    (parse_on_off (some "") = true ∧ parse_on_off (some "1") = true ∧
      parse_on_off (some "true") = true ∧ parse_on_off (some "0") = false ∧
      parse_on_off (some "false") = false) ∧
    (∀ d : Bool, parse_on_off_drawing (some "") d = true ∧
      parse_on_off_drawing (some "1") d = true ∧
      parse_on_off_drawing (some "true") d = true ∧
      parse_on_off_drawing (some "0") d = false ∧
      parse_on_off_drawing (some "false") d = false) ∧
    (parse_on_off_run "1" = true ∧ parse_on_off_run "0" = false ∧
      parse_on_off_run "false" = false) ∧
    (parse_run_property_xml (some {})).bold = none ∧
    (parse_run_property_xml (some { bold := some ⟨none⟩ })).bold = some true ∧
    (parse_run_property_xml (some { bold := some ⟨some "0"⟩ })).bold =
      some false := by
  refine ⟨fun v => rfl, fun v => rfl, rfl, fun d => rfl,
    ⟨by decide, by decide, by decide, by decide, by decide⟩,
    fun d => ⟨rfl, rfl, rfl, rfl, rfl⟩,
    ⟨by decide, by decide, by decide⟩, by decide, by decide, by decide⟩

/-- C5: a `pt`-suffixed margin value converts at the fixed 20-per-point
multiplier to the same internal dxa integer as the already-converted
value (`"12.7pt"` and `"254"` both give 254, and a whole `w:pgMar` parse
with either spelling yields the same margins), while a non-numeric value
parses to `none` and leaves the field at its documented default. -/
theorem C5_dxa_parsing :
    parse_dxa_i32 (some "12.7pt") = some 254 ∧
    parse_dxa_i32 (some "254") = some 254 ∧
    (SectionProperty.deserialize
        [SectionPropertyChildXml.pageMargin { top := some "12.7pt" }]) =
      (SectionProperty.deserialize
        [SectionPropertyChildXml.pageMargin { top := some "254" }]) ∧
    SectionProperty.page_margin (SectionProperty.deserialize
        [SectionPropertyChildXml.pageMargin { top := some "12.7pt" }]) =
      { PageMargin.new with top := 254 } ∧
    parse_dxa_i32 (some "twelve") = none ∧
    SectionProperty.page_margin (SectionProperty.deserialize
        [SectionPropertyChildXml.pageMargin { top := some "twelve" }]) =
      PageMargin.new := by
  refine ⟨by decide, by decide, by decide, by decide, by decide, by decide⟩

/-- C6: a numbering level with no start sub-element defaults to start 1,
no number-format defaults to `decimal`, no justification defaults to
`left` (also when the other sub-elements are present), and an absent
run-properties block parses to the present-but-empty default bundle. -/
theorem C6_defaults :
    (level_from_xml {}).start = 1 ∧
    (level_from_xml {}).format = "decimal" ∧
    (level_from_xml {}).jc = "left" ∧
    (level_from_xml { number_format := some ⟨some "upperRoman"⟩ }).start = 1 ∧
    (level_from_xml { number_format := some ⟨some "upperRoman"⟩ }).format =
      "upperRoman" ∧
    (level_from_xml { start := some ⟨some "3"⟩ }).start = 3 ∧
    parse_run_property_xml none = RunProperty.new := by
  refine ⟨by decide, by decide, by decide, by decide, by decide, by decide,
    rfl⟩

/-- C7: the writer synthesizes the empty filler paragraph only for an
empty cell or for a cell whose single child is a table; a cell holding two
nested tables (and hence no paragraph) is emitted without any paragraph,
leaving the `w:tc` container content-less. -/
theorem C7_cell_filler_paragraph :
    TableCell.buildChildren TableCell.new =
      [TcEmitted.tcPr, TcEmitted.paragraph] ∧
    TableCell.buildChildren (TableCell.new.add_table (Table.new [])) =
      [TcEmitted.tcPr, TcEmitted.table, TcEmitted.paragraph] ∧
    TableCell.buildChildren
        ((TableCell.new.add_table (Table.new [])).add_table (Table.new [])) =
      [TcEmitted.tcPr, TcEmitted.table, TcEmitted.table] ∧
    TcEmitted.paragraph ∉
      TableCell.buildChildren
        ((TableCell.new.add_table (Table.new [])).add_table (Table.new [])) := by
  refine ⟨rfl, rfl, rfl, by decide⟩

/-- C8: a container holding one well-formed known child, one unknown
child and one `bookmarkStart` missing its required name parses without
error to exactly the well-formed child, both for a structured data tag's
content (run child) and for the document body (paragraph child). -/
theorem C8_partial_failure_containment :
    (StructuredDataTag.deserialize none
        (some [SdtContentChildXml.run Run.new,
               SdtContentChildXml.unknown,
               SdtContentChildXml.bookmarkStart ⟨some "1", none⟩])).children =
      [StructuredDataTagChild.run Run.new] ∧
    (Document.deserialize
        [DocumentChildXml.paragraph Paragraph.new,
         DocumentChildXml.unknown,
         DocumentChildXml.bookmarkStart ⟨some "1", none⟩]).children =
      [DocumentChild.paragraph Paragraph.new] :=
  ⟨rfl, rfl⟩

/-- C9, counterexample: writing the reader-only `InstrTextString` child
aborts with the `unreachable!()` panic, which is not a reported "not
implemented" condition. -/
theorem C9_counterexample :
    RunChild.build (RunChild.instrTextString "PAGE") =
      BuildOutcome.panic unreachableMsg ∧
    BuildOutcome.isNotImplementedReport
      (RunChild.build (RunChild.instrTextString "PAGE")) = false := by
  refine ⟨rfl, by decide⟩

/-- C9, amended: both unsupported run-child write paths fail loudly
without emitting any markup — a `Shape` child panics with the `todo!`
"not yet implemented" report, while an `InstrTextString` child panics as
unreachable code rather than reporting "not implemented". -/
theorem C9_amended_unsupported_write :
    (∀ s : Shape, RunChild.build (RunChild.shape s) =
      BuildOutcome.panic shapeTodoMsg) ∧
    BuildOutcome.isNotImplementedReport (BuildOutcome.panic shapeTodoMsg) =
      true ∧
    (∀ str : String, RunChild.build (RunChild.instrTextString str) =
      BuildOutcome.panic unreachableMsg) ∧
    (∀ s : Shape,
      BuildOutcome.emitted (RunChild.build (RunChild.shape s)) = false) ∧
    (∀ str : String,
      BuildOutcome.emitted (RunChild.build (RunChild.instrTextString str)) =
        false) := by
  refine ⟨fun s => rfl, by decide, fun str => rfl, fun s => rfl,
    fun str => rfl⟩

/-- C10: `Run::add_text` and `Run::add_delete_text` store the supplied
string with every `'\n'` character deleted (and nothing else changed), so
newline-carrying text is silently altered at the builder interface. -/
theorem C10_newline_stripping (r : Run) (s : String) :
    (r.add_text s).children =
      r.children ++
        [RunChild.text ⟨true, ⟨s.data.filter (fun c => c ≠ '\n')⟩⟩] ∧
    (r.add_delete_text s).children =
      r.children ++
        [RunChild.deleteText ⟨⟨s.data.filter (fun c => c ≠ '\n')⟩, true⟩] := by
  constructor
  · simp [Run.add_text, Text.new, removeNewlines_eq_filter]
  · simp [Run.add_delete_text, DeleteText.new, removeNewlines_eq_filter]

end Docx
